import Mathlib

/-!
Verification development for the Sira microkernel core
(src/layers/rust/kernel/src/{resource,message,plugin,service}.rs).

Shallow embedding conventions:
* Stateful components become explicit state records with pure transition
  functions returning `Except err a × State` (plus an event/call trace where
  the observable behaviour is a sequence of calls).
* Machine integers (`u32`, `u64`, `i64`) are modelled as `Nat`/`Int`; none of
  the modelled quantities come near overflow in the source's intended use.
* Timestamps (`DateTime<Utc>`) are modelled as `Int` seconds; the source
  compares times via `signed_duration_since(..).num_seconds()`, i.e. at whole
  second granularity, which the `Int` model matches.
* `Uuid::new_v4()` fresh-id generation is modelled by a counter threaded
  through the state (ids are fresh, which is the only property used).
* Floating point appears in the source only in `usage_percentage`
  (derived, never read back) and in the pool strategy's
  `(total as f64 * 0.1) as u64`, which equals `total / 10` (floor) for the
  magnitudes involved; the former is omitted, the latter modelled as `/ 10`.
-/

namespace Sira

/- ===================================================================
   Resource manager — src/layers/rust/kernel/src/resource.rs
   =================================================================== -/

/-- `ResourceType` (resource.rs). -/
inductive ResourceType
  | Cpu
  | Memory
  | Disk
  | Network
  | Gpu
  | DatabaseConnections
  | Custom
deriving DecidableEq

/-- `ResourceLimits` (resource.rs): one capacity per type, fixed at boot. -/
structure ResourceLimits where
  max_cpu : Nat
  max_memory : Nat
  max_disk : Nat
  max_network : Nat
  max_gpu : Nat
  max_db_connections : Nat
deriving DecidableEq

/-- `ResourcePriority` (resource.rs). -/
inductive ResourcePriority
  | Low
  | Normal
  | High
  | Critical
deriving DecidableEq

/-- `ResourceRequest` (resource.rs); `timeout`/`metadata` are carried through
unchanged by the code and irrelevant to the claims, so they are omitted. -/
structure ResourceRequest where
  requester : String
  resource_type : ResourceType
  amount : Nat
  priority : ResourcePriority
deriving DecidableEq

/-- `ResourceAllocation` (resource.rs); `allocated_at`, `expires_at` and
`metadata` are never read by any modelled operation and are omitted.
`id` models the `Uuid` allocation id. -/
structure ResourceAllocation where
  id : Nat
  owner : String
  resource_type : ResourceType
  amount : Nat
deriving DecidableEq

/-- `ResourceUsage` (resource.rs) minus the derived `usage_percentage` (an
`f64` recomputed from `used`/`total`, never read) and `last_updated`. -/
structure ResourceUsage where
  total : Nat
  used : Nat
  reserved : Nat
deriving DecidableEq

/-- Errors of the resource manager (`KernelError::resource_error` call sites). -/
inductive RmErr
  | amountNotPositive
  | amountExceedsMax
  | noStrategy
  | notAvailableQueued
  | allocationNotFound
deriving DecidableEq

/-- The `ResourceManager` state: allocation table (`HashMap<String, _>` with
unique ids, modelled as a list), lazily populated usage map, FIFO pending
queue, and the fresh-id counter modelling `Uuid::new_v4`. -/
structure RMState where
  limits : ResourceLimits
  allocations : List ResourceAllocation
  usage : List (ResourceType × ResourceUsage)
  allocation_queue : List ResourceRequest
  next_id : Nat
deriving DecidableEq

/-- `ResourceManager::new`: empty allocation table, **empty** usage map
(entries are created lazily by `update_usage` only), empty queue. -/
def RMState.new (limits : ResourceLimits) : RMState :=
  { limits := limits, allocations := [], usage := [], allocation_queue := [], next_id := 0 }

/-- `ResourceManager::get_total_capacity`. -/
def get_total_capacity (limits : ResourceLimits) : ResourceType → Nat
  | .Cpu => limits.max_cpu
  | .Memory => limits.max_memory
  | .Disk => limits.max_disk
  | .Network => limits.max_network
  | .Gpu => limits.max_gpu
  | .DatabaseConnections => limits.max_db_connections
  | .Custom => 0

/-- Lookup in the usage map (`self.usage.get(&resource_type)`). -/
def usageFind (s : RMState) (t : ResourceType) : Option ResourceUsage :=
  (s.usage.find? (fun p => p.1 = t)).map (fun p => p.2)

/-- `ResourceManager::check_availability`: `used + amount <= total` when the
type has a usage entry, and **false when it has none**. -/
def RMState.check_availability (s : RMState) (t : ResourceType) (amount : Nat) : Bool :=
  match usageFind s t with
  | some u => u.used + amount ≤ u.total
  | none => false

/-- Replace the entry for `t` in an association list, or append it. Models
`HashMap::entry(..).or_insert_with(..)` followed by in-place mutation. -/
def setUsage (l : List (ResourceType × ResourceUsage)) (t : ResourceType)
    (u : ResourceUsage) : List (ResourceType × ResourceUsage) :=
  match l with
  | [] => [(t, u)]
  | p :: r => if p.1 = t then (t, u) :: r else p :: setUsage r t u

/-- `ResourceManager::update_usage`: lazily creates the entry (with
`used = 0`), then `used = (used as i64 + delta).max(0) as u64`
(`Int.toNat` clamps at zero exactly like `.max(0)`). -/
def RMState.update_usage (s : RMState) (t : ResourceType) (delta : Int) : RMState :=
  let u0 :=
    match usageFind s t with
    | some u => u
    | none => { total := get_total_capacity s.limits t, used := 0, reserved := 0 }
  let u1 : ResourceUsage := { u0 with used := ((u0.used : Int) + delta).toNat }
  { s with usage := setUsage s.usage t u1 }

/-- `ResourceManager::allocate_resource`: fresh id, insert the allocation,
add `amount` to usage. -/
def RMState.allocate_resource (s : RMState) (req : ResourceRequest) : Nat × RMState :=
  let allocation_id := s.next_id
  let alloc : ResourceAllocation :=
    { id := allocation_id, owner := req.requester,
      resource_type := req.resource_type, amount := req.amount }
  let s1 : RMState :=
    { s with allocations := s.allocations ++ [alloc], next_id := s.next_id + 1 }
  (allocation_id, s1.update_usage req.resource_type (req.amount : Int))

/-- The three admission strategies (resource.rs bottom). -/
inductive Strategy
  | fairShare
  | priorityBased
  | pool
deriving DecidableEq

/-- The per-type strategy table registered in `ResourceManager::new`.
`Custom` has no entry. -/
def strategyFor : ResourceType → Option Strategy
  | .Cpu => some .fairShare
  | .Memory => some .fairShare
  | .Disk => some .priorityBased
  | .Network => some .fairShare
  | .Gpu => some .priorityBased
  | .DatabaseConnections => some .pool
  | .Custom => none

/-- `ResourceStrategy::allocate` for the three strategies. Fair-share and
priority-based both admit iff `check_availability`; the priority preemption
branch is an empty `TODO` in the source. The pool strategy reserves
`total - floor(total * 0.1)` and reads the usage map directly (erroring when
the entry is missing). `none` models the strategy returning `Err`. -/
def strategy_allocate (strat : Strategy) (req : ResourceRequest) (s : RMState) :
    Option (Nat × RMState) :=
  match strat with
  | .fairShare =>
    if s.check_availability req.resource_type req.amount then
      some (s.allocate_resource req)
    else none
  | .priorityBased =>
    if s.check_availability req.resource_type req.amount then
      some (s.allocate_resource req)
    else none
  | .pool =>
    match usageFind s req.resource_type with
    | some u =>
      if u.used + req.amount ≤ u.total - u.total / 10 then
        some (s.allocate_resource req)
      else none
    | none => none

/-- `ResourceManager::request_resources`: validation (amount positive, amount
within the type's total capacity), then the type's strategy; on strategy
failure the request is appended to the pending queue and an error returned. -/
def RMState.request_resources (s : RMState) (req : ResourceRequest) :
    Except RmErr Nat × RMState :=
  if req.amount = 0 then (.error .amountNotPositive, s)
  else if get_total_capacity s.limits req.resource_type < req.amount then
    (.error .amountExceedsMax, s)
  else
    match strategyFor req.resource_type with
    | none => (.error .noStrategy, s)
    | some strat =>
      match strategy_allocate strat req s with
      | some (id, s1) => (.ok id, s1)
      | none =>
        (.error .notAvailableQueued,
         { s with allocation_queue := s.allocation_queue ++ [req] })

/-- One step of `ResourceManager::process_allocation_queue`: re-attempt one
queued request; fulfilled requests are dropped from the queue, the rest kept
in order. -/
def processQueueStep (acc : RMState × List ResourceRequest) (req : ResourceRequest) :
    RMState × List ResourceRequest :=
  match strategyFor req.resource_type with
  | none => (acc.1, acc.2 ++ [req])
  | some strat =>
    match strategy_allocate strat req acc.1 with
    | some (_, s1) => (s1, acc.2)
    | none => (acc.1, acc.2 ++ [req])

/-- `ResourceManager::process_allocation_queue`: scan the whole queue in
order, admitting every request whose strategy now succeeds. -/
def RMState.process_allocation_queue (s : RMState) : RMState :=
  let start : RMState × List ResourceRequest := ({ s with allocation_queue := [] }, [])
  let res := s.allocation_queue.foldl processQueueStep start
  { res.1 with allocation_queue := res.2 }

/-- `ResourceManager::release_resources`: remove the allocation, subtract its
amount from usage, then re-scan the pending queue. -/
def RMState.release_resources (s : RMState) (allocation_id : Nat) :
    Except RmErr Unit × RMState :=
  match s.allocations.find? (fun a => a.id = allocation_id) with
  | none => (.error .allocationNotFound, s)
  | some alloc =>
    let s1 : RMState :=
      { s with allocations := s.allocations.filter (fun a => a.id ≠ allocation_id) }
    let s2 := s1.update_usage alloc.resource_type (-(alloc.amount : Int))
    (.ok (), s2.process_allocation_queue)

/-- `ResourceManager::get_allocations_for_owner`. -/
def RMState.get_allocations_for_owner (s : RMState) (owner : String) :
    List ResourceAllocation :=
  s.allocations.filter (fun a => a.owner = owner)

/-- The `used` counter currently recorded for a type, if any. -/
def usedOf (s : RMState) (t : ResourceType) : Option Nat :=
  (usageFind s t).map (fun u => u.used)

/- Concrete fixtures for the resource-manager claims. -/

/-- Limits with `max_cpu = 4`, as in the spec's scenario. -/
def limits4 : ResourceLimits :=
  { max_cpu := 4, max_memory := 8192, max_disk := 100, max_network := 1000,
    max_gpu := 2, max_db_connections := 10 }

/-- `request_resources(Cpu, 4, owner = svcA)`. -/
def reqA : ResourceRequest :=
  { requester := "svcA", resource_type := .Cpu, amount := 4, priority := .Normal }

/-- `request_resources(Cpu, 1, owner = svcB)`. -/
def reqB : ResourceRequest :=
  { requester := "svcB", resource_type := .Cpu, amount := 1, priority := .Normal }

/-- The C9 counterexample state: a manager with `max_cpu = 4`, svcA holding
an allocation of 4 CPU (usage entry `used = 4, total = 4`), and svcB's
request for 1 CPU sitting in the pending queue — exactly the spec's own
`max_cpu=4` scenario at the point just before svcA releases. -/
def sC9 : RMState :=
  { limits := limits4,
    allocations := [{ id := 0, owner := "svcA", resource_type := .Cpu, amount := 4 }],
    usage := [(.Cpu, { total := 4, used := 4, reserved := 0 })],
    allocation_queue := [reqB], next_id := 1 }

/-- The allocation table of `release_resources` after removal, before the
usage decrement (helper naming the intermediate state of the source). -/
def strippedState (s : RMState) (alloc : ResourceAllocation) : RMState :=
  { s with allocations := s.allocations.filter (fun a => a.id ≠ alloc.id) }

/-- The state of `release_resources` after removal and usage decrement,
before the queue re-scan. -/
def releasedState (s : RMState) (alloc : ResourceAllocation) : RMState :=
  (strippedState s alloc).update_usage alloc.resource_type (-(alloc.amount : Int))

/-- A manager whose Cpu usage entry exists (`used = 0`), so a request can
actually be admitted. -/
def rmSeeded : RMState :=
  { limits := limits4, allocations := [],
    usage := [(.Cpu, { total := 4, used := 0, reserved := 0 })],
    allocation_queue := [], next_id := 5 }

/-- svcA's granted allocation of 4 CPU with id 0. -/
def allocW : ResourceAllocation :=
  { id := 0, owner := "svcA", resource_type := .Cpu, amount := 4 }

/-- A manager in which svcA holds `allocW` and nothing is queued. -/
def rmHeld : RMState :=
  { limits := limits4, allocations := [allocW],
    usage := [(.Cpu, { total := 4, used := 4, reserved := 0 })],
    allocation_queue := [], next_id := 1 }

/- ===================================================================
   Message bus — src/layers/rust/kernel/src/message.rs
   =================================================================== -/

/-- `Message` (message.rs). `payload`/`headers`/`priority`/`sender`/
`recipients` are carried through `publish` unchanged and never examined by
the modelled operations, so only a representative `payload` is kept.
`timestamp` is seconds (`num_seconds` granularity); `ttl = 0` means no
expiration. -/
structure Message where
  id : String
  topic : String
  payload : String
  timestamp : Int
  ttl : Nat
deriving DecidableEq

/-- Sentinel modelling `DateTime::<Utc>::MIN_UTC`, the "no timestamp given"
marker `publish` replaces with `now`. -/
def minTimestamp : Int := -8334632851200

/-- A topic's broadcast channel: `receivers` models the number of live
`broadcast::Receiver`s (the dispatch loop of `start_message_processor`
attaches them asynchronously, one per ~100ms tick; `broadcast::channel`'s
initially returned receiver is dropped on the spot in
`get_or_create_topic`, so a freshly created channel has zero). `sent` is
the sequence of messages successfully handed to the channel. -/
structure TopicChannel where
  receivers : Nat
  sent : List Message
deriving DecidableEq

/-- A stored `Subscription` (message.rs): subscriber id and topic patterns.
The handler and options (`max_concurrent`, `timeout`, `auto_ack`, `filter`)
do not affect the subscription table itself and are omitted here; the
request/response handler's effect is modelled by `AwaitOutcome` below. -/
structure Subscription where
  id : String
  topics : List String
deriving DecidableEq

/-- Errors of the message bus (`KernelError::message_bus_error` call sites). -/
inductive BusErr
  | alreadyRunning
  | notRunning
  | sendFailed
  | subscriberNotFound (id : String)
  | responseChannelClosed
  | requestTimeout
deriving DecidableEq

/-- The `MessageBus` state. `message_queue` of the source is written by
nothing in the modelled operations and is omitted. -/
structure BusState where
  topics : List (String × TopicChannel)
  subscriptions : List Subscription
  message_history : List Message
  max_history_size : Nat
  running : Bool
  next_uuid : Nat
deriving DecidableEq

/-- `MessageBus::new` (with `max_history_size = 1000`). -/
def BusState.new : BusState :=
  { topics := [], subscriptions := [], message_history := [],
    max_history_size := 1000, running := false, next_uuid := 0 }

/-- Rendering of `Uuid::new_v4()` from the fresh counter. -/
def uuidString (n : Nat) : String := "uuid-" ++ toString n

/-- `MessageBus::get_or_create_topic`: look the channel up, creating it with
zero receivers (`broadcast::channel(100)`'s initial receiver is dropped). -/
def BusState.get_or_create_topic (s : BusState) (topic : String) :
    TopicChannel × BusState :=
  match s.topics.find? (fun p => p.1 = topic) with
  | some p => (p.2, s)
  | none =>
    let ch : TopicChannel := { receivers := 0, sent := [] }
    (ch, { s with topics := s.topics ++ [(topic, ch)] })

/-- `MessageBus::add_to_history`: `push_back`, then `pop_front` once if over
`max_history_size`. -/
def BusState.add_to_history (s : BusState) (m : Message) : BusState :=
  let h := s.message_history ++ [m]
  { s with message_history := if s.max_history_size < h.length then h.drop 1 else h }

/-- Record a message into a topic's channel (`broadcast::Sender::send` on
the success path). -/
def BusState.pushToChannel (s : BusState) (topic : String) (m : Message) : BusState :=
  { s with topics := s.topics.map (fun p =>
      if p.1 = topic then (p.1, { p.2 with sent := p.2.sent ++ [m] }) else p) }

/-- `MessageBus::publish`: assign id/timestamp if absent; drop silently
(`Ok`) when `ttl > 0` and `now - timestamp > ttl`; otherwise append to
history, get-or-create the topic channel and send. `broadcast::send`
returns `Err` when the channel has no receivers, which `publish` propagates
as a send failure (this makes its `subscriber_count == 0` debug branch
unreachable: `send` never returns `Ok(0)`). -/
def BusState.publish (s : BusState) (now : Int) (m0 : Message) :
    Except BusErr Unit × BusState :=
  let m1 := if m0.id = "" then { m0 with id := uuidString s.next_uuid } else m0
  let sA := if m0.id = "" then { s with next_uuid := s.next_uuid + 1 } else s
  let m := if m1.timestamp = minTimestamp then { m1 with timestamp := now } else m1
  if 0 < m.ttl ∧ (m.ttl : Int) < now - m.timestamp then
    (.ok (), sA)
  else
    let sB := sA.add_to_history m
    let (ch, sC) := sB.get_or_create_topic m.topic
    if ch.receivers = 0 then (.error .sendFailed, sC)
    else (.ok (), sC.pushToChannel m.topic m)

/-- `MessageBus::subscribe`: store (insert/replace by id) the subscription,
then get-or-create each topic's channel. Always `Ok`. -/
def BusState.subscribe (s : BusState) (subscriber_id : String)
    (topics : List String) : Except BusErr Unit × BusState :=
  let sub : Subscription := { id := subscriber_id, topics := topics }
  let s1 : BusState :=
    { s with subscriptions :=
        s.subscriptions.filter (fun q => q.id ≠ subscriber_id) ++ [sub] }
  (.ok (), topics.foldl (fun acc t => (acc.get_or_create_topic t).2) s1)

/-- `MessageBus::unsubscribe`: remove by subscriber id, erroring when the
id is absent from the table. -/
def BusState.unsubscribe (s : BusState) (subscriber_id : String) :
    Except BusErr Unit × BusState :=
  if s.subscriptions.any (fun q => q.id = subscriber_id) then
    (.ok (), { s with subscriptions :=
        s.subscriptions.filter (fun q => q.id ≠ subscriber_id) })
  else (.error (.subscriberNotFound subscriber_id), s)

/-- The three ways `tokio::time::timeout(timeout, rx.recv())` can resolve in
`MessageBus::request`: a response message arrived, the channel closed
(`Ok(None)`), or the timeout elapsed (`Err(_)`). -/
inductive AwaitOutcome
  | received (response : Message)
  | closed
  | timedOut
deriving DecidableEq

/-- `MessageBus::request`: subscribe a throwaway handler on
`response.<request-id>` under subscriber id `request_<request-id>`, publish
the request (`?` propagates a publish failure), then branch on the awaited
outcome. Note the success path unsubscribes `request_<RESPONSE-id>`,
whereas the closed/timeout paths unsubscribe `request_<request-id>`; each
`unsubscribe` result goes through `?`. -/
def BusState.request (s : BusState) (now : Int) (req : Message)
    (outcome : AwaitOutcome) : Except BusErr Message × BusState :=
  let response_topic := "response." ++ req.id
  let subId := "request_" ++ req.id
  let s1 := (s.subscribe subId [response_topic]).2
  match s1.publish now req with
  | (.error e, s2) => (.error e, s2)
  | (.ok _, s2) =>
    match outcome with
    | .received resp =>
      match s2.unsubscribe ("request_" ++ resp.id) with
      | (.ok _, s3) => (.ok resp, s3)
      | (.error e, s3) => (.error e, s3)
    | .closed =>
      match s2.unsubscribe subId with
      | (.ok _, s3) => (.error .responseChannelClosed, s3)
      | (.error e, s3) => (.error e, s3)
    | .timedOut =>
      match s2.unsubscribe subId with
      | (.ok _, s3) => (.error .requestTimeout, s3)
      | (.error e, s3) => (.error e, s3)

/-- A running bus on which no topic has ever been created or subscribed. -/
def busFresh : BusState :=
  { topics := [], subscriptions := [], message_history := [],
    max_history_size := 1000, running := true, next_uuid := 0 }

/-- The message of the C2 scenario: explicit id, no ttl. -/
def msgNoSubs : Message :=
  { id := "m1", topic := "events.test", payload := "p", timestamp := 100, ttl := 0 }

/-- A bus where the request's own topic `work.do` already has a dispatch
receiver, so publishing the request succeeds. -/
def busReady : BusState :=
  { topics := [("work.do", { receivers := 1, sent := [] })],
    subscriptions := [], message_history := [],
    max_history_size := 1000, running := true, next_uuid := 0 }

/-- The request message of the C3 scenario. -/
def reqMsg : Message :=
  { id := "r1", topic := "work.do", payload := "q", timestamp := 100, ttl := 0 }

/-- The response message: its own fresh id `r2` (a responder builds a new
message and publishes it on `response.r1`). -/
def respMsg : Message :=
  { id := "r2", topic := "response.r1", payload := "a", timestamp := 101, ttl := 0 }

/- ===================================================================
   Wildcard topic matching — `MessageBus::topic_matches` /
   `topic_matches_static` (two identical copies in message.rs)
   =================================================================== -/

/-- `str::find(part)` on character lists: the first index at which `needle`
occurs (as a contiguous sub-list) in `hay`. Topics/patterns are matched at
character granularity (the source indexes bytes; the modelled topics are
ASCII, where the two coincide). -/
def findSub (needle : List Char) : List Char → Option Nat
  | [] => if needle.isPrefixOf [] then some 0 else none
  | c :: t =>
    if needle.isPrefixOf (c :: t) then some 0
    else (findSub needle t).map (fun n => n + 1)

/-- `pattern.split('*')` on character lists. -/
def splitStar : List Char → List (List Char)
  | [] => [[]]
  | c :: t =>
    if c = '*' then [] :: splitStar t
    else
      match splitStar t with
      | [] => [[c]]
      | h :: r => (c :: h) :: r

/-- The `for (i, part) in pattern_parts.iter().enumerate()` loop of
`topic_matches`: greedy left-to-right scan keeping `topic_pos`. A found
part advances the position past its first occurrence; a part that is not
found rejects only when it is the first part and the pattern does not start
with `*`, or the last part and the pattern does not end with `*` —
otherwise the loop just continues (the part is skipped). -/
def matchParts (startsStar endsStar : Bool) (total : Nat) (topic : List Char) :
    List (List Char) → Nat → Nat → Bool
  | [], _, _ => true
  | part :: rest, i, pos =>
    match findSub part (topic.drop pos) with
    | some p => matchParts startsStar endsStar total topic rest (i + 1) (pos + p + part.length)
    | none =>
      if i = 0 && !startsStar then false
      else if i + 1 = total && !endsStar then false
      else matchParts startsStar endsStar total topic rest (i + 1) pos

/-- `MessageBus::topic_matches` (and the byte-for-byte identical
`topic_matches_static`): exact equality always matches; a pattern
containing `*` runs the greedy scan; a pattern without `*` matches only by
equality. -/
def topic_matches (pattern topic : String) : Bool :=
  if pattern = topic then true
  else if pattern.data.contains '*' then
    matchParts (decide (pattern.data.head? = some '*'))
      (decide (pattern.data.getLast? = some '*'))
      (splitStar pattern.data).length topic.data (splitStar pattern.data) 0 0
  else false

/-- The claim's wildcard semantics, stated from the claim's words for
comparison with `topic_matches`: the segments of the pattern (split on `*`)
must occur in order in the topic, the first segment anchored at the topic's
start when the pattern does not start with `*`, and the last segment
anchored at the topic's end when the pattern does not end with `*`. The
scan is greedy leftmost, which is complete for in-order occurrence. -/
def anchoredScan (endsStar : Bool) (topic : List Char) :
    List (List Char) → Nat → Bool
  | [], _ => true
  | [part], pos =>
    if endsStar then (findSub part (topic.drop pos)).isSome
    else decide (pos + part.length ≤ topic.length) && part.isSuffixOf topic
  | part :: next :: rest, pos =>
    match findSub part (topic.drop pos) with
    | some p => anchoredScan endsStar topic (next :: rest) (pos + p + part.length)
    | none => false

/-- The claim's characterisation of `topic_matches`, assembled: exact
equality, or anchored in-order occurrence of the `*`-split segments. -/
def claimMatches (pattern topic : String) : Bool :=
  if pattern = topic then true
  else if pattern.data.contains '*' then
    match splitStar pattern.data with
    | [] => false
    | h :: rest =>
      if decide (pattern.data.head? = some '*') then
        anchoredScan (decide (pattern.data.getLast? = some '*')) topic.data (h :: rest) 0
      else
        h.isPrefixOf topic.data &&
          anchoredScan (decide (pattern.data.getLast? = some '*')) topic.data rest h.length
  else false

/-- In-order occurrence of a segment list in `topic`, all at positions at or
after `pos`. -/
def occursFrom (topic : List Char) : List (List Char) → Nat → Prop
  | [], _ => True
  | part :: rest, pos =>
    ∃ a, pos ≤ a ∧ part.isPrefixOf (topic.drop a) = true ∧
      occursFrom topic rest (a + part.length)

/- ===================================================================
   Plugin manager — src/layers/rust/kernel/src/plugin.rs
   =================================================================== -/

/-- `PluginState` (plugin.rs). -/
inductive PluginState
  | Unloaded
  | Loading
  | Loaded
  | Initializing
  | Running
  | Stopping
  | Stopped
  | Error
deriving DecidableEq

/-- Errors of the plugin manager (`KernelError::plugin_error` call sites);
`wrongState` carries the state reported in the "Plugin is not in … state"
message, `instanceFailed` models an error propagated with `?` from the
boxed plugin instance's own lifecycle method. -/
inductive PluginErr
  | notFound
  | alreadyLoaded
  | wrongState (st : PluginState)
  | instanceFailed
deriving DecidableEq

/-- Pure model of the boxed `dyn Plugin` instance: whether each lifecycle
method returns `Ok` when invoked. -/
structure PluginBehavior where
  initOk : Bool
  startOk : Bool
  stopOk : Bool
  cleanupOk : Bool
deriving DecidableEq

/-- `LoadedPlugin` (plugin.rs): metadata id, lifecycle state, the instance
(as `PluginBehavior`), tracked resource-allocation ids and tracked service
ids. The context/library handle have no modelled behaviour. -/
structure LoadedPlugin where
  id : String
  state : PluginState
  behavior : PluginBehavior
  allocated_resources : List Nat
  registered_services : List String
deriving DecidableEq

/-- The `PluginManager` state: plugin table plus the shared resource
manager handle (`unload_plugin` releases through it). -/
structure PMState where
  plugins : List LoadedPlugin
  rm : RMState
deriving DecidableEq

/-- Observable calls `unload_plugin` makes on the instance and on the other
kernel components. `unregisterServiceCall` exists so that "services are
unregistered on unload" is expressible — the source never performs it. -/
inductive PluginCall
  | stopCall (id : String)
  | cleanupCall (id : String)
  | releaseResourceCall (rid : Nat)
  | unregisterServiceCall (sid : String)
deriving DecidableEq

/-- `self.plugins.remove(plugin_id)` — performed **first** in
`unload_plugin`, before stop/cleanup/release. -/
def PMState.removePlugin (s : PMState) (plugin_id : String) : PMState :=
  { s with plugins := s.plugins.filter (fun q => q.id ≠ plugin_id) }

/-- Best-effort release of the tracked allocation ids in order: each
`release_resources` error is only warned, so the fold keeps whatever state
the failed release left (unchanged, per `release_resources`). -/
def releaseAll (rm : RMState) (rids : List Nat) : RMState :=
  rids.foldl (fun acc rid => (acc.release_resources rid).2) rm

/-- Body of `unload_plugin` once the plugin was found (and already removed
from the table): stop if `Running` (`?` aborts on failure — skipping
cleanup and release), then `cleanup()` (`?` aborts on failure — skipping
release), then best-effort release of each tracked allocation id. The
tracked `registered_services` are never touched. -/
def unloadFound (s : PMState) (plugin_id : String) (p : LoadedPlugin) :
    Except PluginErr Unit × PMState × List PluginCall :=
  if p.state = PluginState.Running ∧ p.behavior.stopOk = false then
    (.error .instanceFailed, s.removePlugin plugin_id, [.stopCall plugin_id])
  else if p.behavior.cleanupOk = false then
    (.error .instanceFailed, s.removePlugin plugin_id,
      (if p.state = PluginState.Running then [PluginCall.stopCall plugin_id] else [])
        ++ [.cleanupCall plugin_id])
  else
    (.ok (),
      { s.removePlugin plugin_id with
          rm := releaseAll (s.removePlugin plugin_id).rm p.allocated_resources },
      (if p.state = PluginState.Running then [PluginCall.stopCall plugin_id] else [])
        ++ [.cleanupCall plugin_id]
        ++ p.allocated_resources.map (fun rid => PluginCall.releaseResourceCall rid))

/-- `PluginManager::unload_plugin`. -/
def PMState.unload_plugin (s : PMState) (plugin_id : String) :
    Except PluginErr Unit × PMState × List PluginCall :=
  match s.plugins.find? (fun q => q.id = plugin_id) with
  | none => (.error .notFound, s, [])
  | some p => unloadFound s plugin_id p

/-- In-place state change of one plugin (`plugin.state = …` under the
table's write lock). -/
def PMState.setPluginState (s : PMState) (plugin_id : String) (st : PluginState) : PMState :=
  { s with plugins := s.plugins.map (fun q =>
      if q.id = plugin_id then { q with state := st } else q) }

/-- The state a plugin id currently has, if loaded. -/
def stateOf (s : PMState) (plugin_id : String) : Option PluginState :=
  (s.plugins.find? (fun q => q.id = plugin_id)).map (fun q => q.state)

/-- Body of `initialize_plugin` once found: requires `Loaded` (else a typed
error and **no side effect**); sets `Initializing`, invokes
`initialize` (`?`), and only on success sets `Stopped` — a failed
`initialize` leaves the state at `Initializing`. -/
def initFound (s : PMState) (plugin_id : String) (p : LoadedPlugin) :
    Except PluginErr Unit × PMState :=
  if p.state ≠ PluginState.Loaded then (.error (.wrongState p.state), s)
  else if p.behavior.initOk then (.ok (), s.setPluginState plugin_id .Stopped)
  else (.error .instanceFailed, s.setPluginState plugin_id .Initializing)

/-- `PluginManager::initialize_plugin`. -/
def PMState.initialize_plugin (s : PMState) (plugin_id : String) :
    Except PluginErr Unit × PMState :=
  match s.plugins.find? (fun q => q.id = plugin_id) with
  | none => (.error .notFound, s)
  | some p => initFound s plugin_id p

/-- Body of `start_plugin` once found: requires `Stopped`; sets `Running`
**before** invoking `start`, so a failed `start` leaves the state at
`Running`. -/
def startFound (s : PMState) (plugin_id : String) (p : LoadedPlugin) :
    Except PluginErr Unit × PMState :=
  if p.state ≠ PluginState.Stopped then (.error (.wrongState p.state), s)
  else if p.behavior.startOk then (.ok (), s.setPluginState plugin_id .Running)
  else (.error .instanceFailed, s.setPluginState plugin_id .Running)

/-- `PluginManager::start_plugin`. -/
def PMState.start_plugin (s : PMState) (plugin_id : String) :
    Except PluginErr Unit × PMState :=
  match s.plugins.find? (fun q => q.id = plugin_id) with
  | none => (.error .notFound, s)
  | some p => startFound s plugin_id p

/-- Body of `stop_plugin` once found: requires `Running`; sets `Stopping`,
invokes `stop` (`?`), and only on success sets `Stopped` — a failed `stop`
leaves the state at `Stopping`. -/
def stopFound (s : PMState) (plugin_id : String) (p : LoadedPlugin) :
    Except PluginErr Unit × PMState :=
  if p.state ≠ PluginState.Running then (.error (.wrongState p.state), s)
  else if p.behavior.stopOk then (.ok (), s.setPluginState plugin_id .Stopped)
  else (.error .instanceFailed, s.setPluginState plugin_id .Stopping)

/-- `PluginManager::stop_plugin`. -/
def PMState.stop_plugin (s : PMState) (plugin_id : String) :
    Except PluginErr Unit × PMState :=
  match s.plugins.find? (fun q => q.id = plugin_id) with
  | none => (.error .notFound, s)
  | some p => stopFound s plugin_id p

/-- A plugin instance whose every lifecycle method succeeds. -/
def behAll : PluginBehavior :=
  { initOk := true, startOk := true, stopOk := true, cleanupOk := true }

/-- A plugin instance whose `stop` fails. -/
def behBadStop : PluginBehavior :=
  { initOk := true, startOk := true, stopOk := false, cleanupOk := true }

/-- A plugin instance whose `initialize` fails. -/
def behBadInit : PluginBehavior :=
  { initOk := false, startOk := true, stopOk := true, cleanupOk := true }

/-- A running plugin whose `stop` fails, holding one tracked allocation and
one tracked service. -/
def pRun : LoadedPlugin :=
  { id := "pr", state := .Running, behavior := behBadStop,
    allocated_resources := [0], registered_services := ["s1"] }

/-- Plugin manager holding `pRun`; its resource manager holds allocation 0. -/
def pmRun : PMState := { plugins := [pRun], rm := rmHeld }

/-- A stopped plugin with a working instance and one tracked allocation. -/
def pOkW : LoadedPlugin :=
  { id := "pw", state := .Stopped, behavior := behAll,
    allocated_resources := [0], registered_services := [] }

/-- Plugin manager holding `pOkW`. -/
def pmW : PMState := { plugins := [pOkW], rm := rmHeld }

/-- A plugin in `Loaded` whose `initialize` fails. -/
def pBadInit : LoadedPlugin :=
  { id := "pi", state := .Loaded, behavior := behBadInit,
    allocated_resources := [], registered_services := [] }

/-- Plugin manager holding `pBadInit`. -/
def pmInit : PMState := { plugins := [pBadInit], rm := RMState.new limits4 }

/-- A plugin sitting in `Loaded` (never initialized) with a fully working
instance. -/
def pLoadedW : LoadedPlugin :=
  { id := "pl", state := .Loaded, behavior := behAll,
    allocated_resources := [], registered_services := [] }

/-- Plugin manager holding `pLoadedW`. -/
def pmL : PMState := { plugins := [pLoadedW], rm := RMState.new limits4 }

/- ===================================================================
   Service registry — src/layers/rust/kernel/src/service.rs
   =================================================================== -/

/-- `ServiceStatus` (service.rs). -/
inductive ServiceStatus
  | Starting
  | Healthy
  | Degraded
  | Unhealthy
  | Stopping
  | Down
  | Unknown
deriving DecidableEq

/-- Errors of the service registry (`KernelError::service_error` call
sites). -/
inductive ServiceErr
  | notFound
  | alreadyRegistered
deriving DecidableEq

/-- The claim-relevant fields of `ServiceMetadata`: id, health status and
heartbeat clock. The remaining metadata (name, version, endpoint, type,
capabilities, tags, priority, …) is untouched by `heartbeat` and
`check_expired_services`. -/
structure ServiceMeta where
  id : String
  status : ServiceStatus
  last_heartbeat : Int
deriving DecidableEq

/-- `ServiceEvent` variants emitted by the modelled operations. The source
publishes them on topic `service.events` and only warns when the publish
fails, so emission is modelled as an event list. -/
inductive ServiceEvent
  | serviceHeartbeat (service_id : String) (timestamp : Int)
  | serviceStatusChanged (service_id : String) (old_status new_status : ServiceStatus)
deriving DecidableEq

/-- The `ServiceRegistry` state: service table and the `service_timeout`
(seconds; 90 by default). The three secondary indexes do not affect the
modelled operations. -/
structure RegistryState where
  services : List ServiceMeta
  service_timeout : Int
deriving DecidableEq

/-- `ServiceRegistry::heartbeat`: sets `last_heartbeat = now` and
`status = Healthy` unconditionally (whatever the previous status), and
emits a `ServiceHeartbeat` event; errors when the id is unknown. -/
def RegistryState.heartbeat (s : RegistryState) (now : Int) (service_id : String) :
    Except ServiceErr Unit × RegistryState × List ServiceEvent :=
  if s.services.any (fun m => m.id = service_id) then
    (.ok (),
      { s with services := s.services.map (fun m =>
          if m.id = service_id then { m with last_heartbeat := now, status := .Healthy }
          else m) },
      [.serviceHeartbeat service_id now])
  else (.error .notFound, s, [])

/-- The loop body of `check_expired_services`: a service with
`now - last_heartbeat > timeout` whose status is not already `Down` is set
to `Unhealthy`, its id collected, and a `ServiceStatusChanged` event
emitted (with `old_status` hardcoded to `Healthy`, as in the source). -/
def sweepServices (timeout now : Int) : List ServiceMeta →
    List ServiceMeta × List String × List ServiceEvent
  | [] => ([], [], [])
  | m :: r =>
    let rest := sweepServices timeout now r
    if timeout < now - m.last_heartbeat ∧ m.status ≠ ServiceStatus.Down then
      ({ m with status := .Unhealthy } :: rest.1, m.id :: rest.2.1,
        ServiceEvent.serviceStatusChanged m.id .Healthy .Unhealthy :: rest.2.2)
    else (m :: rest.1, rest.2.1, rest.2.2)

/-- `ServiceRegistry::check_expired_services`. -/
def RegistryState.check_expired_services (s : RegistryState) (now : Int) :
    List String × RegistryState × List ServiceEvent :=
  let r := sweepServices s.service_timeout now s.services
  (r.2.1, { s with services := r.1 }, r.2.2)

/-- Lookup of a service's metadata. -/
def serviceFind (s : RegistryState) (service_id : String) : Option ServiceMeta :=
  s.services.find? (fun m => m.id = service_id)

/-- A service's current status, if registered. -/
def serviceStatusOf (s : RegistryState) (service_id : String) : Option ServiceStatus :=
  (serviceFind s service_id).map (fun m => m.status)

/-- A service's current heartbeat clock, if registered. -/
def serviceHbOf (s : RegistryState) (service_id : String) : Option Int :=
  (serviceFind s service_id).map (fun m => m.last_heartbeat)

/-- A registry with one service registered as `Starting` that has never
heartbeated (clock 0), timeout 90. -/
def regW : RegistryState :=
  { services := [{ id := "svc1", status := .Starting, last_heartbeat := 0 }],
    service_timeout := 90 }

/- ===================================================================
   Theorems
   =================================================================== -/

/-- Claim C1 (code bug, failing evaluation): on a **fresh** resource manager
with `max_cpu = 4`, the very first `request_resources(Cpu, 4, owner = svcA)`
does not succeed: `check_availability` returns false because the usage map
has no `Cpu` entry yet (entries are created lazily only by
`update_usage`, which only allocation/release call), so the request is
queued and an error returned — the spec's scenario fails at its first step. -/
theorem C1_code_bug_eval :
    ((RMState.new limits4).request_resources reqA).1 = .error .notAvailableQueued ∧
    ((RMState.new limits4).request_resources reqA).2.allocation_queue = [reqA] ∧
    ((RMState.new limits4).request_resources reqA).2.allocations = [] ∧
    (RMState.new limits4).check_availability .Cpu 4 = false :=
  ⟨rfl, rfl, rfl, rfl⟩

/-- Claim C10: for a resource type with no usage-map entry (no allocation or
release ever recorded on it), `check_availability` is false for every amount,
and a valid first request admitted through the fair-share or priority
strategy is never granted: it is queued and the call errors. -/
theorem C10_lazy_usage_queueing (s : RMState) (req : ResourceRequest)
    (hnone : usageFind s req.resource_type = none)
    (hstrat : strategyFor req.resource_type = some .fairShare ∨
      strategyFor req.resource_type = some .priorityBased)
    (hpos : req.amount ≠ 0)
    (hcap : req.amount ≤ get_total_capacity s.limits req.resource_type) :
    (∀ amount, s.check_availability req.resource_type amount = false) ∧
    (s.request_resources req).1 = .error .notAvailableQueued ∧
    (s.request_resources req).2.allocation_queue = s.allocation_queue ++ [req] := by
  have havail : ∀ amount, s.check_availability req.resource_type amount = false := by
    intro amount
    unfold RMState.check_availability
    rw [hnone]
  refine ⟨havail, ?_⟩
  unfold RMState.request_resources
  rw [if_neg hpos, if_neg (by omega)]
  rcases hstrat with h | h <;> simp [h, strategy_allocate, havail]

/-- Witness for C10 at the concrete fresh manager and svcA's request. -/
theorem C10_lazy_usage_queueing_witness :
    (∀ amount, (RMState.new limits4).check_availability .Cpu amount = false) ∧
    ((RMState.new limits4).request_resources reqA).1 = .error .notAvailableQueued ∧
    ((RMState.new limits4).request_resources reqA).2.allocation_queue = [] ++ [reqA] :=
  C10_lazy_usage_queueing (RMState.new limits4) reqA rfl (Or.inl rfl)
    (by decide) (by decide)

/-- Claim C9 counterexample: releasing svcA's allocation (amount 4) does not
leave `used` decreased by exactly 4: the release re-scans the pending queue,
svcB's queued request for 1 CPU is admitted, and `used` ends at 1, not
`4 - 4 = 0`. The claim's unconditional "used has decreased by exactly the
allocation's amount" is false whenever the re-scan admits something. -/
theorem C9_counterexample :
    (sC9.release_resources 0).1 = .ok () ∧
    usedOf sC9 .Cpu = some 4 ∧
    usedOf (sC9.release_resources 0).2 .Cpu = some 1 ∧
    usedOf (sC9.release_resources 0).2 .Cpu ≠ some (4 - 4) :=
  ⟨rfl, rfl, rfl, by decide⟩

/-- Every successful strategy admission is `allocate_resource` on the very
state the strategy was consulted with. -/
theorem strategy_allocate_ok (strat : Strategy) (req : ResourceRequest) (s : RMState)
    (pr : Nat × RMState) (h : strategy_allocate strat req s = some pr) :
    pr = s.allocate_resource req := by
  cases strat with
  | fairShare =>
    simp only [strategy_allocate] at h
    split at h
    · exact (Option.some.inj h).symm
    · exact absurd h (by simp)
  | priorityBased =>
    simp only [strategy_allocate] at h
    split at h
    · exact (Option.some.inj h).symm
    · exact absurd h (by simp)
  | pool =>
    simp only [strategy_allocate] at h
    cases hu : usageFind s req.resource_type with
    | none => rw [hu] at h; exact absurd h (by simp)
    | some u =>
      rw [hu] at h
      split at h
      · split at h
        · exact (Option.some.inj h).symm
        · exact absurd h (by simp)
      · exact absurd h (by simp)

/-- A successful `request_resources` returns exactly the id and state of
`allocate_resource` applied to the incoming state. -/
theorem request_ok_shape (s : RMState) (req : ResourceRequest) (id : Nat)
    (hok : (s.request_resources req).1 = .ok id) :
    id = (s.allocate_resource req).1 ∧
    (s.request_resources req).2 = (s.allocate_resource req).2 := by
  by_cases h0 : req.amount = 0
  · have hbad : (s.request_resources req).1 = .error .amountNotPositive := by
      unfold RMState.request_resources
      rw [if_pos h0]
    rw [hbad] at hok
    simp at hok
  · by_cases hcap : get_total_capacity s.limits req.resource_type < req.amount
    · have hbad : (s.request_resources req).1 = .error .amountExceedsMax := by
        unfold RMState.request_resources
        rw [if_neg h0, if_pos hcap]
      rw [hbad] at hok
      simp at hok
    · cases hstrat : strategyFor req.resource_type with
      | none =>
        have hbad : (s.request_resources req).1 = .error .noStrategy := by
          unfold RMState.request_resources
          rw [if_neg h0, if_neg hcap]
          simp only [hstrat]
        rw [hbad] at hok
        simp at hok
      | some strat =>
        cases halloc : strategy_allocate strat req s with
        | none =>
          have hbad : (s.request_resources req).1 = .error .notAvailableQueued := by
            unfold RMState.request_resources
            rw [if_neg h0, if_neg hcap]
            simp only [hstrat, halloc]
          rw [hbad] at hok
          simp at hok
        | some pr =>
          obtain ⟨i, st⟩ := pr
          have hpr := strategy_allocate_ok strat req s (i, st) halloc
          have hreq : s.request_resources req = (Except.ok i, st) := by
            unfold RMState.request_resources
            rw [if_neg h0, if_neg hcap]
            simp only [hstrat, halloc]
          rw [hreq] at hok
          simp at hok
          subst hok
          rw [hreq, ← hpr]
          exact ⟨rfl, rfl⟩

/-- The allocation built by `allocate_resource` is retrievable for its owner. -/
theorem allocate_mem (s : RMState) (req : ResourceRequest) :
    ∃ a ∈ (s.allocate_resource req).2.get_allocations_for_owner req.requester,
      a.id = (s.allocate_resource req).1 ∧ a.resource_type = req.resource_type ∧
      a.amount = req.amount := by
  refine ⟨{ id := s.next_id, owner := req.requester,
            resource_type := req.resource_type, amount := req.amount }, ?_, rfl, rfl, rfl⟩
  simp [RMState.allocate_resource, RMState.get_allocations_for_owner, RMState.update_usage,
    List.mem_filter]

/-- Re-scanning an empty pending queue is a no-op. -/
theorem process_queue_empty (s : RMState) (h : s.allocation_queue = []) :
    s.process_allocation_queue = s := by
  unfold RMState.process_allocation_queue
  rw [h]
  simp only [List.foldl_nil]
  obtain ⟨l, a, u, q, n⟩ := s
  simp only at h
  subst h
  rfl

/-- `setUsage` really updates the looked-up entry. -/
theorem setUsage_find (l : List (ResourceType × ResourceUsage)) (t : ResourceType)
    (u : ResourceUsage) :
    (setUsage l t u).find? (fun p => p.1 = t) = some (t, u) := by
  induction l with
  | nil => simp [setUsage]
  | cons p r ih =>
    by_cases h : p.1 = t
    · simp [setUsage, h]
    · simp [setUsage, h, ih]

/-- The `used` counter after `update_usage` on a type that had an entry. -/
theorem usedOf_update (s : RMState) (t : ResourceType) (d : Int) (u : ResourceUsage)
    (hu : usageFind s t = some u) :
    usedOf (s.update_usage t d) t = some ((u.used : Int) + d).toNat := by
  unfold RMState.update_usage
  rw [hu]
  unfold usedOf usageFind
  simp [setUsage_find]

/-- Claim C9 as amended: (1) every allocation created by a successful
`request_resources` is retrievable via `get_allocations_for_owner` under the
requesting owner, with the returned id and the requested type and amount;
(2) releasing an allocation removes it (no allocation with its id remains
retrievable for its owner) and — provided the pending queue is empty, so the
release's queue re-scan admits nothing — decreases the type's `used` counter
by exactly the allocation's amount. -/
theorem C9_amended :
    (∀ (s : RMState) (req : ResourceRequest) (id : Nat),
      (s.request_resources req).1 = .ok id →
      ∃ a ∈ (s.request_resources req).2.get_allocations_for_owner req.requester,
        a.id = id ∧ a.resource_type = req.resource_type ∧ a.amount = req.amount) ∧
    (∀ (s : RMState) (alloc : ResourceAllocation) (u : ResourceUsage),
      s.allocations.find? (fun a => a.id = alloc.id) = some alloc →
      s.allocation_queue = [] →
      usageFind s alloc.resource_type = some u →
      alloc.amount ≤ u.used →
      (s.release_resources alloc.id).1 = .ok () ∧
      (∀ a ∈ (s.release_resources alloc.id).2.get_allocations_for_owner alloc.owner,
        a.id ≠ alloc.id) ∧
      usedOf (s.release_resources alloc.id).2 alloc.resource_type =
        some (u.used - alloc.amount)) := by
  constructor
  · intro s req id hok
    obtain ⟨h1, h2⟩ := request_ok_shape s req id hok
    rw [h2, h1]
    exact allocate_mem s req
  · intro s alloc u hfind hq hu hle
    have hq2 : (releasedState s alloc).allocation_queue = [] := hq
    have hrel : s.release_resources alloc.id =
        (.ok (), (releasedState s alloc).process_allocation_queue) := by
      unfold RMState.release_resources releasedState strippedState
      rw [hfind]
    rw [process_queue_empty _ hq2] at hrel
    rw [hrel]
    refine ⟨rfl, ?_, ?_⟩
    · intro a ha
      have ha2 : a ∈ (s.allocations.filter (fun x => x.id ≠ alloc.id)).filter
          (fun x => x.owner = alloc.owner) := ha
      have hpred := (List.mem_filter.mp (List.mem_filter.mp ha2).1).2
      simpa using hpred
    · show usedOf (releasedState s alloc) alloc.resource_type = some (u.used - alloc.amount)
      have hu1 : usageFind (strippedState s alloc) alloc.resource_type = some u := hu
      unfold releasedState
      rw [usedOf_update _ _ _ u hu1]
      congr 1
      omega

/-- Witness for the amended C9 at concrete states: a granted request is
retrievable, and a release with an empty pending queue removes it and
decrements `used` by exactly its amount. -/
theorem C9_amended_witness :
    (∃ a ∈ (rmSeeded.request_resources reqA).2.get_allocations_for_owner "svcA",
      a.id = 5 ∧ a.resource_type = ResourceType.Cpu ∧ a.amount = 4) ∧
    ((rmHeld.release_resources 0).1 = .ok () ∧
      (∀ a ∈ (rmHeld.release_resources 0).2.get_allocations_for_owner "svcA", a.id ≠ 0) ∧
      usedOf (rmHeld.release_resources 0).2 ResourceType.Cpu = some (4 - 4)) :=
  ⟨C9_amended.1 rmSeeded reqA 5 rfl,
   C9_amended.2 rmHeld allocW ⟨4, 4, 0⟩ rfl rfl rfl (by decide)⟩

/-- Claim C2 (code bug, failing evaluation): publishing to topic
`events.test` — zero subscriptions, zero receivers because the lazily
created broadcast channel starts with none — appends the message to history
but then returns a send **error**, not success: `broadcast::send` errors
when there are no receivers, and `publish` propagates that with `?`. -/
theorem C2_code_bug_eval :
    (busFresh.publish 100 msgNoSubs).1 = .error .sendFailed ∧
    (busFresh.publish 100 msgNoSubs).2.message_history = [msgNoSubs] ∧
    (busFresh.publish 100 msgNoSubs).2.subscriptions = [] :=
  ⟨rfl, rfl, rfl⟩

/-- Claim C8: a message with `ttl > 0` whose (explicitly given) timestamp is
more than `ttl` seconds in the past is dropped silently: `publish` returns
`Ok` and the state — history, channels, subscriptions — is unchanged, so
the message reaches no subscriber. -/
theorem C8_expired_publish_dropped (s : BusState) (now : Int) (m : Message)
    (httl : 0 < m.ttl) (hpast : (m.ttl : Int) < now - m.timestamp)
    (hid : m.id ≠ "") (hts : m.timestamp ≠ minTimestamp) :
    s.publish now m = (.ok (), s) := by
  unfold BusState.publish
  simp only [if_neg hid, if_neg hts]
  rw [if_pos ⟨httl, hpast⟩]

/-- Witness for C8: `ttl = 5`, timestamp 6 seconds in the past. -/
theorem C8_expired_publish_dropped_witness :
    busFresh.publish 6
      { id := "m2", topic := "t", payload := "", timestamp := 0, ttl := 5 } =
      (.ok (), busFresh) :=
  C8_expired_publish_dropped busFresh 6
    { id := "m2", topic := "t", payload := "", timestamp := 0, ttl := 5 }
    (by decide) (by decide) (by decide) (by decide)

/-- Claim C3 (code bug, failing evaluation): on the response-received path,
`request` tries to remove subscriber `request_<response.id>` =
`request_r2`, but the throwaway subscription was registered as
`request_r1`. `unsubscribe` fails, the `?` turns the successful response
into an error, and the ephemeral subscription `request_r1` stays in the
table — leaked. -/
theorem C3_code_bug_eval :
    (busReady.request 100 reqMsg (.received respMsg)).1 =
      .error (.subscriberNotFound "request_r2") ∧
    (busReady.request 100 reqMsg (.received respMsg)).2.subscriptions.any
      (fun q => q.id = "request_r1") = true :=
  ⟨rfl, rfl⟩

/-- `findSub` soundness: a returned index is an occurrence. -/
theorem findSub_sound (needle : List Char) :
    ∀ (hay : List Char) (p : Nat), findSub needle hay = some p →
    needle.isPrefixOf (hay.drop p) = true := by
  intro hay
  induction hay with
  | nil =>
    intro p h
    unfold findSub at h
    split at h
    next hpre => simpa [List.drop_nil] using hpre
    next => exact absurd h (by simp)
  | cons c t ih =>
    intro p h
    unfold findSub at h
    split at h
    next hpre =>
      obtain rfl : 0 = p := Option.some.inj h
      simpa using hpre
    next hpre =>
      cases hf : findSub needle t with
      | none => rw [hf] at h; simp at h
      | some n =>
        rw [hf] at h
        simp at h
        subst h
        simpa using ih n hf

/-- `findSub` dominance: the leftmost occurrence is at or before any
occurrence. -/
theorem findSub_le (needle : List Char) :
    ∀ (hay : List Char) (k : Nat), needle.isPrefixOf (hay.drop k) = true →
    ∃ p, findSub needle hay = some p ∧ p ≤ k := by
  intro hay
  induction hay with
  | nil =>
    intro k h
    rw [List.drop_nil] at h
    refine ⟨0, ?_, Nat.zero_le k⟩
    unfold findSub
    simp [h]
  | cons c t ih =>
    intro k h
    by_cases hp : needle.isPrefixOf (c :: t) = true
    · exact ⟨0, by unfold findSub; simp [hp], Nat.zero_le k⟩
    · cases k with
      | zero => rw [List.drop_zero] at h; exact absurd h hp
      | succ k2 =>
        rw [List.drop_succ_cons] at h
        obtain ⟨p, hf, hle⟩ := ih k2 h
        refine ⟨p + 1, ?_, by omega⟩
        unfold findSub
        simp [hp, hf]

/-- The source's greedy loop accepts whenever an in-order occurrence exists
at or after the current position — regardless of the index `i`, the total,
and the anchor flags. -/
theorem matchParts_complete (ss es : Bool) (total : Nat) (topic : List Char) :
    ∀ (parts : List (List Char)) (q pos i : Nat),
    occursFrom topic parts q → pos ≤ q →
    matchParts ss es total topic parts i pos = true := by
  intro parts
  induction parts with
  | nil => intro q pos i h hle; rfl
  | cons part rest ih =>
    intro q pos i h hle
    obtain ⟨a, haq, hocc, hrest⟩ := h
    have hk : part.isPrefixOf ((topic.drop pos).drop (a - pos)) = true := by
      rw [List.drop_drop]
      have h2 : pos + (a - pos) = a := by omega
      rw [h2]
      exact hocc
    obtain ⟨p, hfind, hple⟩ := findSub_le part (topic.drop pos) (a - pos) hk
    unfold matchParts
    rw [hfind]
    exact ih (a + part.length) (pos + p + part.length) (i + 1) hrest (by omega)

/-- The claim's anchored greedy scan yields an in-order occurrence. -/
theorem anchoredScan_occurs (es : Bool) (topic : List Char) :
    ∀ (parts : List (List Char)) (pos : Nat),
    anchoredScan es topic parts pos = true → occursFrom topic parts pos := by
  intro parts
  induction parts with
  | nil => intro pos h; trivial
  | cons part rest ih =>
    intro pos h
    cases rest with
    | nil =>
      unfold anchoredScan at h
      cases es with
      | true =>
        simp only [if_true] at h
        obtain ⟨p, hp⟩ := Option.isSome_iff_exists.mp h
        have hpre := findSub_sound part _ p hp
        rw [List.drop_drop] at hpre
        exact ⟨pos + p, by omega, hpre, trivial⟩
      | false =>
        simp only [Bool.false_eq_true, if_false, Bool.and_eq_true] at h
        obtain ⟨hd1, hd2⟩ := h
        have hle := of_decide_eq_true hd1
        have hsuf : part <:+ topic := List.isSuffixOf_iff_suffix.mp hd2
        obtain ⟨t0, ht0⟩ := hsuf
        have hlen : t0.length = topic.length - part.length := by
          have hl := congrArg List.length ht0
          simp at hl
          omega
        have hdrop : topic.drop (topic.length - part.length) = part := by
          rw [← hlen, ← ht0, List.drop_left]
        refine ⟨topic.length - part.length, by omega, ?_, trivial⟩
        rw [hdrop]
        exact List.isPrefixOf_iff_prefix.mpr (List.prefix_refl part)
    | cons next rest2 =>
      unfold anchoredScan at h
      cases hf : findSub part (topic.drop pos) with
      | none => rw [hf] at h; simp at h
      | some p =>
        rw [hf] at h
        have h2 : anchoredScan es topic (next :: rest2) (pos + p + part.length) = true := h
        have hpre := findSub_sound part _ p hf
        rw [List.drop_drop] at hpre
        exact ⟨pos + p, by omega, hpre, ih (pos + p + part.length) h2⟩

/-- Claim C4 counterexample: the claimed characterisation is not equivalent
to the code. At `("a.*.c", "xa.b.c")` the code matches though the claim's
start anchor forbids it; at `("a*b*c", "ac")` the code matches though the
segment `b` never occurs; at `("a.*.c", "a.b.cx")` the code matches though
the claim's end anchor forbids it. -/
theorem C4_counterexample :
    (topic_matches "a.*.c" "xa.b.c" = true ∧ claimMatches "a.*.c" "xa.b.c" = false) ∧
    (topic_matches "a*b*c" "ac" = true ∧ claimMatches "a*b*c" "ac" = false) ∧
    (topic_matches "a.*.c" "a.b.cx" = true ∧ claimMatches "a.*.c" "a.b.cx" = false) :=
  ⟨⟨by decide, by decide⟩, ⟨by decide, by decide⟩, ⟨by decide, by decide⟩⟩

/-- Claim C4 as amended: exact equality always matches; a pattern without
`*` matches only by exact equality; the claimed anchored in-order
occurrence of the `*`-split segments is **sufficient** for a match but not
necessary (the code's greedy scan does not anchor the first or last segment
and skips unfound middle segments); and the four cited examples behave as
the claim states. -/
theorem C4_amended :
    (∀ pattern topic : String, pattern = topic → topic_matches pattern topic = true) ∧
    (∀ pattern topic : String, pattern.data.contains '*' = false →
      (topic_matches pattern topic = true ↔ pattern = topic)) ∧
    (∀ pattern topic : String, claimMatches pattern topic = true →
      topic_matches pattern topic = true) ∧
    (topic_matches "a.*.c" "a.b.c" = true ∧ topic_matches "a.*.c" "a.x.c" = true ∧
      topic_matches "a.*.c" "a.b.b" = false ∧ topic_matches "a.*.c" "a.c" = false) := by
  refine ⟨?_, ?_, ?_, by decide, by decide, by decide, by decide⟩
  · intro pattern topic heq
    unfold topic_matches
    rw [if_pos heq]
  · intro pattern topic hnostar
    simp at hnostar
    unfold topic_matches
    by_cases heq : pattern = topic
    · simp [heq]
    · rw [if_neg heq, if_neg (by simp [hnostar])]
      simp [heq]
  · intro pattern topic h
    unfold claimMatches at h
    unfold topic_matches
    by_cases heq : pattern = topic
    · rw [if_pos heq]
    · rw [if_neg heq] at h ⊢
      by_cases hstar : pattern.data.contains '*' = true
      · rw [if_pos hstar] at h ⊢
        cases hsp : splitStar pattern.data with
        | nil => rw [hsp] at h; simp at h
        | cons hd rest =>
          rw [hsp] at h
          have h2 : (if decide (pattern.data.head? = some '*') = true then
              anchoredScan (decide (pattern.data.getLast? = some '*')) topic.data
                (hd :: rest) 0
            else hd.isPrefixOf topic.data &&
              anchoredScan (decide (pattern.data.getLast? = some '*')) topic.data rest
                hd.length) = true := h
          by_cases hss : pattern.data.head? = some '*'
          · rw [if_pos (decide_eq_true hss)] at h2
            exact matchParts_complete _ _ _ _ _ 0 0 0
              (anchoredScan_occurs _ _ (hd :: rest) 0 h2) (Nat.le_refl 0)
          · rw [if_neg (by simpa using hss)] at h2
            rw [Bool.and_eq_true] at h2
            obtain ⟨h1, h3⟩ := h2
            refine matchParts_complete _ _ _ _ _ 0 0 0 ⟨0, Nat.le_refl 0, ?_, ?_⟩
              (Nat.le_refl 0)
            · simpa [List.drop_zero] using h1
            · simpa [Nat.zero_add] using anchoredScan_occurs _ _ rest hd.length h3
      · rw [if_neg hstar] at h
        exact absurd h (by simp)

/-- Witness for the amended C4: the sufficiency direction applied at a
concrete anchored match, and the equality direction at a concrete pair. -/
theorem C4_amended_witness :
    topic_matches "x.*" "x.y" = true ∧ topic_matches "q.r" "q.r" = true :=
  ⟨C4_amended.2.2.1 "x.*" "x.y" (by decide), C4_amended.1 "q.r" "q.r" rfl⟩

/-- After `removePlugin`, the id is not in the table. -/
theorem find_removePlugin (s : PMState) (plugin_id : String) :
    (s.removePlugin plugin_id).plugins.find? (fun q => q.id = plugin_id) = none := by
  rw [List.find?_eq_none]
  intro x hx
  have hx2 : x ∈ s.plugins.filter (fun q => q.id ≠ plugin_id) := hx
  have h2 := (List.mem_filter.mp hx2).2
  simp at h2 ⊢
  exact h2

/-- Updating one plugin's state in the table updates exactly the found
entry. -/
theorem find_set_list (l : List LoadedPlugin) (x : String) (st : PluginState) :
    ∀ p, l.find? (fun q => q.id = x) = some p →
    (l.map (fun q => if q.id = x then { q with state := st } else q)).find?
      (fun q => q.id = x) = some { p with state := st } := by
  induction l with
  | nil => intro p h; simp at h
  | cons q r ih =>
    intro p h
    by_cases hq : q.id = x
    · rw [List.find?_cons_of_pos _ (by simp [hq])] at h
      obtain rfl := Option.some.inj h
      simp only [List.map_cons, if_pos hq]
      rw [List.find?_cons_of_pos _ (by simp [hq])]
    · rw [List.find?_cons_of_neg _ (by simp [hq])] at h
      simp only [List.map_cons, if_neg hq]
      rw [List.find?_cons_of_neg _ (by simp [hq])]
      exact ih p h

/-- `setPluginState` followed by `stateOf` reads back the written state. -/
theorem stateOf_set (s : PMState) (plugin_id : String) (st : PluginState)
    (p : LoadedPlugin)
    (hfind : s.plugins.find? (fun q => q.id = plugin_id) = some p) :
    stateOf (s.setPluginState plugin_id st) plugin_id = some st := by
  show ((s.plugins.map (fun q =>
      if q.id = plugin_id then { q with state := st } else q)).find?
        (fun q => q.id = plugin_id)).map (fun q => q.state) = some st
  rw [find_set_list s.plugins plugin_id st p hfind]
  rfl

/-- `initialize_plugin` behaviour on a loaded plugin: typed error with no
side effects outside `Loaded`; `Loaded → Stopped` on success; stuck at
`Initializing` (never `Error`) when the instance's `initialize` fails. -/
theorem initialize_spec (s : PMState) (plugin_id : String) (p : LoadedPlugin)
    (hfind : s.plugins.find? (fun q => q.id = plugin_id) = some p) :
    (p.state ≠ PluginState.Loaded →
      s.initialize_plugin plugin_id = (.error (.wrongState p.state), s)) ∧
    (p.state = PluginState.Loaded → p.behavior.initOk = true →
      s.initialize_plugin plugin_id = (.ok (), s.setPluginState plugin_id .Stopped) ∧
      stateOf (s.initialize_plugin plugin_id).2 plugin_id = some .Stopped) ∧
    (p.state = PluginState.Loaded → p.behavior.initOk = false →
      (s.initialize_plugin plugin_id).1 = .error .instanceFailed ∧
      stateOf (s.initialize_plugin plugin_id).2 plugin_id = some .Initializing) := by
  have h0 : s.initialize_plugin plugin_id = initFound s plugin_id p := by
    unfold PMState.initialize_plugin
    rw [hfind]
  refine ⟨?_, ?_, ?_⟩
  · intro hne
    rw [h0]
    unfold initFound
    rw [if_pos hne]
  · intro hst hok
    have h1 : s.initialize_plugin plugin_id =
        (.ok (), s.setPluginState plugin_id .Stopped) := by
      rw [h0]
      unfold initFound
      rw [if_neg (by simp [hst]), if_pos hok]
    rw [h1]
    exact ⟨rfl, stateOf_set s plugin_id .Stopped p hfind⟩
  · intro hst hbad
    have h1 : s.initialize_plugin plugin_id =
        (.error .instanceFailed, s.setPluginState plugin_id .Initializing) := by
      rw [h0]
      unfold initFound
      rw [if_neg (by simp [hst]), if_neg (by simp [hbad])]
    rw [h1]
    exact ⟨rfl, stateOf_set s plugin_id .Initializing p hfind⟩

/-- `start_plugin` behaviour: typed error with no side effects outside
`Stopped` (in particular from `Loaded`); `Stopped → Running` on success;
left at `Running` (never `Error`) when the instance's `start` fails. -/
theorem start_spec (s : PMState) (plugin_id : String) (p : LoadedPlugin)
    (hfind : s.plugins.find? (fun q => q.id = plugin_id) = some p) :
    (p.state ≠ PluginState.Stopped →
      s.start_plugin plugin_id = (.error (.wrongState p.state), s)) ∧
    (p.state = PluginState.Stopped → p.behavior.startOk = true →
      s.start_plugin plugin_id = (.ok (), s.setPluginState plugin_id .Running) ∧
      stateOf (s.start_plugin plugin_id).2 plugin_id = some .Running) ∧
    (p.state = PluginState.Stopped → p.behavior.startOk = false →
      (s.start_plugin plugin_id).1 = .error .instanceFailed ∧
      stateOf (s.start_plugin plugin_id).2 plugin_id = some .Running) := by
  have h0 : s.start_plugin plugin_id = startFound s plugin_id p := by
    unfold PMState.start_plugin
    rw [hfind]
  refine ⟨?_, ?_, ?_⟩
  · intro hne
    rw [h0]
    unfold startFound
    rw [if_pos hne]
  · intro hst hok
    have h1 : s.start_plugin plugin_id =
        (.ok (), s.setPluginState plugin_id .Running) := by
      rw [h0]
      unfold startFound
      rw [if_neg (by simp [hst]), if_pos hok]
    rw [h1]
    exact ⟨rfl, stateOf_set s plugin_id .Running p hfind⟩
  · intro hst hbad
    have h1 : s.start_plugin plugin_id =
        (.error .instanceFailed, s.setPluginState plugin_id .Running) := by
      rw [h0]
      unfold startFound
      rw [if_neg (by simp [hst]), if_neg (by simp [hbad])]
    rw [h1]
    exact ⟨rfl, stateOf_set s plugin_id .Running p hfind⟩

/-- `stop_plugin` behaviour: typed error with no side effects outside
`Running`; `Running → Stopped` on success; left at `Stopping` (never
`Error`) when the instance's `stop` fails. -/
theorem stop_spec (s : PMState) (plugin_id : String) (p : LoadedPlugin)
    (hfind : s.plugins.find? (fun q => q.id = plugin_id) = some p) :
    (p.state ≠ PluginState.Running →
      s.stop_plugin plugin_id = (.error (.wrongState p.state), s)) ∧
    (p.state = PluginState.Running → p.behavior.stopOk = true →
      s.stop_plugin plugin_id = (.ok (), s.setPluginState plugin_id .Stopped) ∧
      stateOf (s.stop_plugin plugin_id).2 plugin_id = some .Stopped) ∧
    (p.state = PluginState.Running → p.behavior.stopOk = false →
      (s.stop_plugin plugin_id).1 = .error .instanceFailed ∧
      stateOf (s.stop_plugin plugin_id).2 plugin_id = some .Stopping) := by
  have h0 : s.stop_plugin plugin_id = stopFound s plugin_id p := by
    unfold PMState.stop_plugin
    rw [hfind]
  refine ⟨?_, ?_, ?_⟩
  · intro hne
    rw [h0]
    unfold stopFound
    rw [if_pos hne]
  · intro hst hok
    have h1 : s.stop_plugin plugin_id =
        (.ok (), s.setPluginState plugin_id .Stopped) := by
      rw [h0]
      unfold stopFound
      rw [if_neg (by simp [hst]), if_pos hok]
    rw [h1]
    exact ⟨rfl, stateOf_set s plugin_id .Stopped p hfind⟩
  · intro hst hbad
    have h1 : s.stop_plugin plugin_id =
        (.error .instanceFailed, s.setPluginState plugin_id .Stopping) := by
      rw [h0]
      unfold stopFound
      rw [if_neg (by simp [hst]), if_neg (by simp [hbad])]
    rw [h1]
    exact ⟨rfl, stateOf_set s plugin_id .Stopping p hfind⟩

/-- Claim C5 counterexample: unloading a Running plugin whose `stop()`
fails removes the plugin from the table anyway (removal happens **first**,
not last), returns the stop error, and never calls `cleanup()`, never
releases the tracked allocation, and never unregisters the tracked
service — refuting "always calls cleanup(), … removes the plugin from the
plugin table last, i.e. only after stop, cleanup, and resource release have
run". -/
theorem C5_counterexample :
    (pmRun.unload_plugin "pr").1 = .error .instanceFailed ∧
    (pmRun.unload_plugin "pr").2.1.plugins = [] ∧
    (pmRun.unload_plugin "pr").2.2 = [.stopCall "pr"] ∧
    (pmRun.unload_plugin "pr").2.1.rm = rmHeld :=
  ⟨rfl, rfl, rfl, rfl⟩

/-- Claim C5 as amended: `unload_plugin` on a loaded plugin always removes
it from the table (even when stop/cleanup fail); if the plugin is Running
and its `stop` fails, the call errors after only the stop attempt (no
cleanup, no resource release); if stop succeeds (or was not needed) and
`cleanup` succeeds, the call succeeds, `cleanup()` is called and every
tracked resource-allocation id is released best-effort; tracked services
are never unregistered on any path. -/
theorem C5_amended (s : PMState) (plugin_id : String) (p : LoadedPlugin)
    (hfind : s.plugins.find? (fun q => q.id = plugin_id) = some p) :
    (s.unload_plugin plugin_id).2.1.plugins.find? (fun q => q.id = plugin_id) = none ∧
    (p.state = PluginState.Running → p.behavior.stopOk = false →
      (s.unload_plugin plugin_id).1 = .error .instanceFailed ∧
      (s.unload_plugin plugin_id).2.2 = [.stopCall plugin_id]) ∧
    ((p.state = PluginState.Running → p.behavior.stopOk = true) →
      p.behavior.cleanupOk = true →
      (s.unload_plugin plugin_id).1 = .ok () ∧
      PluginCall.cleanupCall plugin_id ∈ (s.unload_plugin plugin_id).2.2 ∧
      (∀ rid ∈ p.allocated_resources,
        PluginCall.releaseResourceCall rid ∈ (s.unload_plugin plugin_id).2.2)) ∧
    (∀ c ∈ (s.unload_plugin plugin_id).2.2, ∀ sid,
      c ≠ PluginCall.unregisterServiceCall sid) := by
  have h0 : s.unload_plugin plugin_id = unloadFound s plugin_id p := by
    unfold PMState.unload_plugin
    rw [hfind]
  by_cases hbad : p.state = PluginState.Running ∧ p.behavior.stopOk = false
  · have h1 : unloadFound s plugin_id p =
        (.error .instanceFailed, s.removePlugin plugin_id, [.stopCall plugin_id]) := by
      unfold unloadFound
      rw [if_pos hbad]
    rw [h0, h1]
    refine ⟨find_removePlugin s plugin_id, ?_, ?_, ?_⟩
    · intro _ _
      exact ⟨rfl, rfl⟩
    · intro hgood _
      rw [hgood hbad.1] at hbad
      exact absurd hbad.2 (by simp)
    · intro c hc sid
      simp at hc
      subst hc
      simp
  · by_cases hcl : p.behavior.cleanupOk = false
    · have h1 : unloadFound s plugin_id p =
          (.error .instanceFailed, s.removePlugin plugin_id,
            (if p.state = PluginState.Running then [PluginCall.stopCall plugin_id]
              else []) ++ [.cleanupCall plugin_id]) := by
        unfold unloadFound
        rw [if_neg hbad, if_pos hcl]
      rw [h0, h1]
      refine ⟨find_removePlugin s plugin_id, ?_, ?_, ?_⟩
      · intro hrun hstop
        exact absurd ⟨hrun, hstop⟩ hbad
      · intro _ hclean
        rw [hclean] at hcl
        exact absurd hcl (by simp)
      · intro c hc sid
        rcases List.mem_append.mp hc with h | h
        · by_cases hr : p.state = PluginState.Running
          · rw [if_pos hr] at h
            simp at h
            subst h
            simp
          · rw [if_neg hr] at h
            simp at h
        · simp at h
          subst h
          simp
    · have h1 : unloadFound s plugin_id p =
          (.ok (),
            { s.removePlugin plugin_id with
                rm := releaseAll (s.removePlugin plugin_id).rm p.allocated_resources },
            (if p.state = PluginState.Running then [PluginCall.stopCall plugin_id]
              else []) ++ [.cleanupCall plugin_id]
              ++ p.allocated_resources.map
                (fun rid => PluginCall.releaseResourceCall rid)) := by
        unfold unloadFound
        rw [if_neg hbad, if_neg hcl]
      rw [h0, h1]
      refine ⟨find_removePlugin s plugin_id, ?_, ?_, ?_⟩
      · intro hrun hstop
        exact absurd ⟨hrun, hstop⟩ hbad
      · intro _ _
        refine ⟨rfl, ?_, ?_⟩
        · exact List.mem_append_left _
            (List.mem_append_right _ (List.mem_singleton_self _))
        · intro rid hr
          exact List.mem_append_right _ (List.mem_map_of_mem _ hr)
      · intro c hc sid
        rcases List.mem_append.mp hc with h | h
        · rcases List.mem_append.mp h with h2 | h2
          · by_cases hr : p.state = PluginState.Running
            · rw [if_pos hr] at h2
              simp at h2
              subst h2
              simp
            · rw [if_neg hr] at h2
              simp at h2
          · simp at h2
            subst h2
            simp
        · obtain ⟨rid, _, rfl⟩ := List.mem_map.mp h
          simp

/-- Witness for the amended C5 on the success path at a concrete manager. -/
theorem C5_amended_witness :
    ((pmW.unload_plugin "pw").2.1.plugins.find? (fun q => q.id = "pw") = none) ∧
    ((pmW.unload_plugin "pw").1 = .ok () ∧
      PluginCall.cleanupCall "pw" ∈ (pmW.unload_plugin "pw").2.2 ∧
      PluginCall.releaseResourceCall 0 ∈ (pmW.unload_plugin "pw").2.2) ∧
    (∀ c ∈ (pmW.unload_plugin "pw").2.2, ∀ sid,
      c ≠ PluginCall.unregisterServiceCall sid) :=
  have h := C5_amended pmW "pw" pOkW rfl
  ⟨h.1,
   ⟨(h.2.2.1 (fun _ => rfl) rfl).1, (h.2.2.1 (fun _ => rfl) rfl).2.1,
    (h.2.2.1 (fun _ => rfl) rfl).2.2 0 (by decide)⟩,
   h.2.2.2⟩

/-- Claim C6 counterexample: when a transition errors (here `initialize`
failing on a `Loaded` plugin), the plugin's state does **not** become
`Error` — it is left at the intermediate `Initializing`. -/
theorem C6_counterexample :
    (pmInit.initialize_plugin "pi").1 = .error .instanceFailed ∧
    stateOf (pmInit.initialize_plugin "pi").2 "pi" = some .Initializing ∧
    stateOf (pmInit.initialize_plugin "pi").2 "pi" ≠ some .Error :=
  ⟨rfl, rfl, by decide⟩

/-- Claim C6 as amended: each of `initialize_plugin`, `start_plugin` and
`stop_plugin` fails with a typed error and **no side effects** unless the
plugin is in the exact required predecessor state (`Loaded`, `Stopped`,
`Running` respectively — so `start_plugin` from `Loaded` fails); on
success they transition `Loaded → Stopped`, `Stopped → Running`,
`Running → Stopped`; and when the underlying plugin call errors, the state
is left at the intermediate value (`Initializing`, `Running`, `Stopping`
respectively) — it is never set to `Error`. -/
theorem C6_amended :
    (∀ (s : PMState) (plugin_id : String) (p : LoadedPlugin),
      s.plugins.find? (fun q => q.id = plugin_id) = some p →
      (p.state ≠ PluginState.Loaded →
        s.initialize_plugin plugin_id = (.error (.wrongState p.state), s)) ∧
      (p.state = PluginState.Loaded → p.behavior.initOk = true →
        s.initialize_plugin plugin_id = (.ok (), s.setPluginState plugin_id .Stopped) ∧
        stateOf (s.initialize_plugin plugin_id).2 plugin_id = some .Stopped) ∧
      (p.state = PluginState.Loaded → p.behavior.initOk = false →
        (s.initialize_plugin plugin_id).1 = .error .instanceFailed ∧
        stateOf (s.initialize_plugin plugin_id).2 plugin_id = some .Initializing)) ∧
    (∀ (s : PMState) (plugin_id : String) (p : LoadedPlugin),
      s.plugins.find? (fun q => q.id = plugin_id) = some p →
      (p.state ≠ PluginState.Stopped →
        s.start_plugin plugin_id = (.error (.wrongState p.state), s)) ∧
      (p.state = PluginState.Stopped → p.behavior.startOk = true →
        s.start_plugin plugin_id = (.ok (), s.setPluginState plugin_id .Running) ∧
        stateOf (s.start_plugin plugin_id).2 plugin_id = some .Running) ∧
      (p.state = PluginState.Stopped → p.behavior.startOk = false →
        (s.start_plugin plugin_id).1 = .error .instanceFailed ∧
        stateOf (s.start_plugin plugin_id).2 plugin_id = some .Running)) ∧
    (∀ (s : PMState) (plugin_id : String) (p : LoadedPlugin),
      s.plugins.find? (fun q => q.id = plugin_id) = some p →
      (p.state ≠ PluginState.Running →
        s.stop_plugin plugin_id = (.error (.wrongState p.state), s)) ∧
      (p.state = PluginState.Running → p.behavior.stopOk = true →
        s.stop_plugin plugin_id = (.ok (), s.setPluginState plugin_id .Stopped) ∧
        stateOf (s.stop_plugin plugin_id).2 plugin_id = some .Stopped) ∧
      (p.state = PluginState.Running → p.behavior.stopOk = false →
        (s.stop_plugin plugin_id).1 = .error .instanceFailed ∧
        stateOf (s.stop_plugin plugin_id).2 plugin_id = some .Stopping)) :=
  ⟨initialize_spec, start_spec, stop_spec⟩

/-- Witness for the amended C6: `start_plugin` on a plugin in `Loaded`
fails without side effects, and `initialize_plugin` on it succeeds into
`Stopped`. -/
theorem C6_amended_witness :
    pmL.start_plugin "pl" = (.error (.wrongState PluginState.Loaded), pmL) ∧
    stateOf (pmL.initialize_plugin "pl").2 "pl" = some PluginState.Stopped :=
  ⟨(C6_amended.2.1 pmL "pl" pLoadedW rfl).1 (by decide),
   ((C6_amended.1 pmL "pl" pLoadedW rfl).2.1 rfl rfl).2⟩

/-- The heartbeat update rewrites exactly the found entry. -/
theorem find_hb_list (l : List ServiceMeta) (x : String) (now : Int) :
    ∀ m, l.find? (fun q => q.id = x) = some m →
    (l.map (fun q =>
      if q.id = x then { q with last_heartbeat := now, status := .Healthy } else q)).find?
        (fun q => q.id = x) = some { m with last_heartbeat := now, status := .Healthy } := by
  induction l with
  | nil => intro m h; simp at h
  | cons q r ih =>
    intro m h
    by_cases hq : q.id = x
    · rw [List.find?_cons_of_pos _ (by simp [hq])] at h
      obtain rfl := Option.some.inj h
      simp only [List.map_cons, if_pos hq]
      rw [List.find?_cons_of_pos _ (by simp [hq])]
    · rw [List.find?_cons_of_neg _ (by simp [hq])] at h
      simp only [List.map_cons, if_neg hq]
      rw [List.find?_cons_of_neg _ (by simp [hq])]
      exact ih m h

/-- A stale, not-Down service is marked Unhealthy by the sweep, its id is
collected and its status-change event emitted; its heartbeat clock is not
touched. -/
theorem sweep_find (timeout now : Int) :
    ∀ (l : List ServiceMeta) (x : String) (m : ServiceMeta),
    l.find? (fun q => q.id = x) = some m →
    timeout < now - m.last_heartbeat → m.status ≠ .Down →
    (sweepServices timeout now l).1.find? (fun q => q.id = x) =
      some { m with status := .Unhealthy } ∧
    x ∈ (sweepServices timeout now l).2.1 ∧
    ServiceEvent.serviceStatusChanged x .Healthy .Unhealthy ∈
      (sweepServices timeout now l).2.2 := by
  intro l
  induction l with
  | nil => intro x m h; simp at h
  | cons q r ih =>
    intro x m h hstale hnd
    by_cases hq : q.id = x
    · rw [List.find?_cons_of_pos _ (by simp [hq])] at h
      obtain rfl := Option.some.inj h
      have hcond : timeout < now - q.last_heartbeat ∧ q.status ≠ ServiceStatus.Down :=
        ⟨hstale, hnd⟩
      have hsw : sweepServices timeout now (q :: r) =
          ({ q with status := .Unhealthy } :: (sweepServices timeout now r).1,
            q.id :: (sweepServices timeout now r).2.1,
            ServiceEvent.serviceStatusChanged q.id .Healthy .Unhealthy ::
              (sweepServices timeout now r).2.2) := by
        simp only [sweepServices]
        rw [if_pos hcond]
      rw [hsw]
      refine ⟨?_, ?_, ?_⟩
      · rw [List.find?_cons_of_pos _ (by simp [hq])]
      · rw [hq]
        exact List.mem_cons_self _ _
      · rw [hq]
        exact List.mem_cons_self _ _
    · rw [List.find?_cons_of_neg _ (by simp [hq])] at h
      obtain ⟨h1, h2, h3⟩ := ih x m h hstale hnd
      by_cases hcond : timeout < now - q.last_heartbeat ∧ q.status ≠ ServiceStatus.Down
      · have hsw : sweepServices timeout now (q :: r) =
            ({ q with status := .Unhealthy } :: (sweepServices timeout now r).1,
              q.id :: (sweepServices timeout now r).2.1,
              ServiceEvent.serviceStatusChanged q.id .Healthy .Unhealthy ::
                (sweepServices timeout now r).2.2) := by
          simp only [sweepServices]
          rw [if_pos hcond]
        rw [hsw]
        refine ⟨?_, List.mem_cons_of_mem _ h2, List.mem_cons_of_mem _ h3⟩
        rw [List.find?_cons_of_neg _ (by simp [hq])]
        exact h1
      · have hsw : sweepServices timeout now (q :: r) =
            (q :: (sweepServices timeout now r).1,
              (sweepServices timeout now r).2.1,
              (sweepServices timeout now r).2.2) := by
          simp only [sweepServices]
          rw [if_neg hcond]
        rw [hsw]
        refine ⟨?_, h2, h3⟩
        rw [List.find?_cons_of_neg _ (by simp [hq])]
        exact h1

/-- Claim C7: (1) `heartbeat` on a registered id succeeds, sets the status
to Healthy and the heartbeat clock to `now` unconditionally, and emits
exactly one `ServiceHeartbeat` event; (2) once `now - last_heartbeat`
exceeds `service_timeout`, a sweep returns the id, sets the status to
Unhealthy (the status was not Down) and emits a status-change event,
leaving the heartbeat clock untouched; (3) therefore a still-stale service
is reported and an event emitted again on the next sweep. -/
theorem C7_heartbeat_then_expiry :
    (∀ (s : RegistryState) (now : Int) (service_id : String) (m : ServiceMeta),
      serviceFind s service_id = some m →
      (s.heartbeat now service_id).1 = .ok () ∧
      serviceStatusOf (s.heartbeat now service_id).2.1 service_id = some .Healthy ∧
      serviceHbOf (s.heartbeat now service_id).2.1 service_id = some now ∧
      (s.heartbeat now service_id).2.2 = [.serviceHeartbeat service_id now]) ∧
    (∀ (s : RegistryState) (now : Int) (service_id : String) (m : ServiceMeta),
      serviceFind s service_id = some m →
      s.service_timeout < now - m.last_heartbeat → m.status ≠ .Down →
      service_id ∈ (s.check_expired_services now).1 ∧
      serviceStatusOf (s.check_expired_services now).2.1 service_id = some .Unhealthy ∧
      ServiceEvent.serviceStatusChanged service_id .Healthy .Unhealthy ∈
        (s.check_expired_services now).2.2 ∧
      serviceHbOf (s.check_expired_services now).2.1 service_id =
        some m.last_heartbeat) ∧
    (∀ (s : RegistryState) (now now2 : Int) (service_id : String) (m : ServiceMeta),
      serviceFind s service_id = some m →
      s.service_timeout < now - m.last_heartbeat → m.status ≠ .Down →
      s.service_timeout < now2 - m.last_heartbeat →
      service_id ∈ (((s.check_expired_services now).2.1).check_expired_services now2).1 ∧
      ServiceEvent.serviceStatusChanged service_id .Healthy .Unhealthy ∈
        (((s.check_expired_services now).2.1).check_expired_services now2).2.2) := by
  refine ⟨?_, ?_, ?_⟩
  · intro s now service_id m hfind
    have hmem := List.mem_of_find?_eq_some hfind
    have hpred := List.find?_some hfind
    have hany : s.services.any (fun q => q.id = service_id) = true :=
      List.any_eq_true.mpr ⟨m, hmem, hpred⟩
    have h0 : s.heartbeat now service_id =
        (.ok (),
          { s with services := s.services.map (fun q =>
              if q.id = service_id then
                { q with last_heartbeat := now, status := .Healthy }
              else q) },
          [.serviceHeartbeat service_id now]) := by
      unfold RegistryState.heartbeat
      rw [if_pos hany]
    rw [h0]
    have hf := find_hb_list s.services service_id now m hfind
    refine ⟨rfl, ?_, ?_, rfl⟩
    · show ((s.services.map (fun q =>
          if q.id = service_id then { q with last_heartbeat := now, status := .Healthy }
          else q)).find? (fun q => q.id = service_id)).map (fun q => q.status) =
        some ServiceStatus.Healthy
      rw [hf]
      rfl
    · show ((s.services.map (fun q =>
          if q.id = service_id then { q with last_heartbeat := now, status := .Healthy }
          else q)).find? (fun q => q.id = service_id)).map
            (fun q => q.last_heartbeat) = some now
      rw [hf]
      rfl
  · intro s now service_id m hfind hstale hnd
    obtain ⟨h1, h2, h3⟩ :=
      sweep_find s.service_timeout now s.services service_id m hfind hstale hnd
    refine ⟨h2, ?_, h3, ?_⟩
    · show ((sweepServices s.service_timeout now s.services).1.find?
          (fun q => q.id = service_id)).map (fun q => q.status) =
        some ServiceStatus.Unhealthy
      rw [h1]
      rfl
    · show ((sweepServices s.service_timeout now s.services).1.find?
          (fun q => q.id = service_id)).map (fun q => q.last_heartbeat) =
        some m.last_heartbeat
      rw [h1]
      rfl
  · intro s now now2 service_id m hfind hstale hnd hstale2
    obtain ⟨h1, _, _⟩ :=
      sweep_find s.service_timeout now s.services service_id m hfind hstale hnd
    have hfind2 : serviceFind ((s.check_expired_services now).2.1) service_id =
        some { m with status := .Unhealthy } := h1
    obtain ⟨h4, h5, h6⟩ :=
      sweep_find s.service_timeout now2
        (sweepServices s.service_timeout now s.services).1 service_id
        { m with status := .Unhealthy } hfind2 hstale2 (by simp)
    exact ⟨h5, h6⟩

/-- Witness for C7 at `regW`: heartbeat at `now = 10` makes it Healthy with
clock 10; with no further heartbeat it is reported expired at `now = 100`
(90 < 100 - 0) and again at `now = 200`. -/
theorem C7_heartbeat_then_expiry_witness :
    ((regW.heartbeat 10 "svc1").1 = .ok () ∧
      serviceStatusOf (regW.heartbeat 10 "svc1").2.1 "svc1" = some .Healthy ∧
      serviceHbOf (regW.heartbeat 10 "svc1").2.1 "svc1" = some 10 ∧
      (regW.heartbeat 10 "svc1").2.2 = [.serviceHeartbeat "svc1" 10]) ∧
    ("svc1" ∈ (regW.check_expired_services 100).1 ∧
      serviceStatusOf (regW.check_expired_services 100).2.1 "svc1" =
        some .Unhealthy ∧
      ServiceEvent.serviceStatusChanged "svc1" .Healthy .Unhealthy ∈
        (regW.check_expired_services 100).2.2 ∧
      serviceHbOf (regW.check_expired_services 100).2.1 "svc1" = some 0) ∧
    ("svc1" ∈ (((regW.check_expired_services 100).2.1).check_expired_services 200).1 ∧
      ServiceEvent.serviceStatusChanged "svc1" .Healthy .Unhealthy ∈
        (((regW.check_expired_services 100).2.1).check_expired_services 200).2.2) :=
  ⟨C7_heartbeat_then_expiry.1 regW 10 "svc1"
      { id := "svc1", status := .Starting, last_heartbeat := 0 } rfl,
   C7_heartbeat_then_expiry.2.1 regW 100 "svc1"
      { id := "svc1", status := .Starting, last_heartbeat := 0 } rfl
      (by decide) (by decide),
   C7_heartbeat_then_expiry.2.2 regW 100 200 "svc1"
      { id := "svc1", status := .Starting, last_heartbeat := 0 } rfl
      (by decide) (by decide) (by decide)⟩

end Sira
